import Mathlib

set_option maxHeartbeats 1000000

/-!
Shallow embedding of the Gemini service module of this repository
(src/unnamed/part_001).  The external pieces — the Gemini SDK calls and the
JavaScript builtin JSON.parse — are modelled as an explicit environment; all
repository logic (credential check, retry loop, response trimming, code-fence
stripping, brace validation, art-field validation, result construction,
single-shot random word, streaming with error fragment) is translated
directly from the source.  Network effects are made observable by returning,
next to the result, the number of outbound service calls performed.
-/

/-- Whitespace class used to model JavaScript string trimming and the regex
class \s (restricted to the ASCII whitespace characters). -/
def isJsWS (c : Char) : Bool :=
  c == ' ' || c == '\t' || c == '\n' || c == '\r' || c == '\x0b' || c == '\x0c'

/-- Drop leading whitespace characters. -/
def dropWS (l : List Char) : List Char := List.dropWhile isJsWS l

/-- Drop trailing whitespace characters. -/
def dropWSRight (l : List Char) : List Char := (List.dropWhile isJsWS l.reverse).reverse

/-- Model of JavaScript String.prototype.trim, used at src lines 301, 306,
315 and 101. -/
def jsTrim (s : String) : String := String.mk (dropWSRight (dropWS s.data))

deriving instance DecidableEq for Except

/-- A thrown JavaScript value: either an Error object carrying a message, or
a thrown non-Error value (for which no message is available). -/
inductive Thrown where
  | err (msg : String)
  | foreign
  deriving DecidableEq

/-- Coercion performed at src line 330: lastError is the caught error when
it is an Error instance and otherwise a fresh Error whose message is
"Unknown error occurred"; this function reads its message. -/
def lastErrorMessage : Thrown → String
  | .err m => m
  | .foreign => "Unknown error occurred"

/-- Message extraction used at src lines 74-75 and 104-105: the message of
the caught error when it is an Error instance, and the fallback text
"An unknown error occurred." otherwise. -/
def errorMessageOf : Thrown → String
  | .err m => m
  | .foreign => "An unknown error occurred."

/-- A JSON field value as far as validation at src line 315 observes it:
either a string or some non-string value. -/
inductive JField where
  | jstr (s : String)
  | jother
  deriving DecidableEq

/-- The parsed response object (JSON.parse result cast to AsciiArtData at src
line 313), restricted to the two fields the code reads: art (a string or a
non-string) and text (modelled as an optional string). -/
structure ParsedData where
  art : Option JField
  text : Option String
  deriving DecidableEq

/-- The AsciiArtData interface of src lines 32-35: art, optional text. -/
structure AsciiArtData where
  art : String
  text : Option String
  deriving DecidableEq

/-- Environment for generateAsciiArt: `call n` is the outcome of the
ai.models.generateContent call of attempt n, returning the response text or
a thrown value (a failure of response.text extraction is representable as a
thrown value too); `parse` models the builtin JSON.parse, returning the
parsed object or the SyntaxError message it throws. -/
structure GenEnv where
  call : Nat → Except Thrown String
  parse : String → Except String ParsedData

/-- Feature flag of src line 30. -/
def ENABLE_ASCII_TEXT_GENERATION : Bool := false

/-- Retry bound of src line 283. -/
def maxRetries : Nat := 3

/-- Message thrown by getAi at src lines 9-11 when the key is missing. -/
def apiKeyMissingMsg : String := "API Key is missing. Please provide a valid API key."

/-- The backtick character of the code fence. -/
def btick : Char := '\x60'

/-- The optional json label of the fence regex: consume a literal json
after the opening fence when present (the greedy (?:json)? alternative). -/
def stripLabel : List Char → List Char
  | 'j' :: 's' :: 'o' :: 'n' :: rest => rest
  | rest => rest

/-- The anchored suffix of the fence regex, applied after the greedy prefix
consumed the opening fence, label and whitespace: the remainder must end
with the closing fence, and the lazy capture is the middle with its maximal
trailing whitespace run given to \n?\s*. -/
def fenceSuffixBody (r2 : List Char) : Option (List Char) :=
  match r2.reverse with
  | d1 :: d2 :: d3 :: mid =>
    if d1 = btick ∧ d2 = btick ∧ d3 = btick then
      some (mid.dropWhile isJsWS).reverse
    else none
  | _ => none

/-- Capture group of the fence regex of src line 303,
^(three backticks)(?:json)?\s*\n?(.*?)\n?\s*(three backticks)$ with the s
flag: returns the first capture group when the (anchored) regex matches the
string, and none otherwise.  The greedy prefix takes the literal fence, the
optional json label and the maximal whitespace run (after which \n? can
only match the empty string); the anchored suffix forces the remainder to
end with the closing fence, and the lazy capture is then minimal. -/
def fenceCapture (s : String) : Option String :=
  match s.data with
  | c1 :: c2 :: c3 :: rest =>
    if c1 = btick ∧ c2 = btick ∧ c3 = btick then
      match fenceSuffixBody ((stripLabel rest).dropWhile isJsWS) with
      | some body => some (String.mk body)
      | none => none
    else none
  | _ => none

/-- Whether a string begins with the three-backtick fence. -/
def beginsWithFence (s : String) : Bool :=
  match s.data with
  | c1 :: c2 :: c3 :: _ => c1 == btick && c2 == btick && c3 == btick
  | _ => false

/-- The jsonStr computed by src lines 301-307 from the raw response text:
trim, then replace by the trimmed capture group when the fence regex matched
and the capture (match[1]) is truthy, i.e. non-empty. -/
def extractJsonStr (responseText : String) : String :=
  let t := jsTrim responseText
  match fenceCapture t with
  | some body => if body = "" then t else jsTrim body
  | none => t

/-- jsonStr.startsWith of src line 309 with the one-character argument. -/
def startsWithBrace (s : String) : Bool :=
  match s.data with
  | c :: _ => c == '\x7b'
  | [] => false

/-- jsonStr.endsWith of src line 309 with the one-character argument. -/
def endsWithBrace (s : String) : Bool :=
  match s.data.reverse with
  | c :: _ => c == '\x7d'
  | [] => false

/-- The art field as the typeof check of src line 315 observes it: some
string when the field holds a string, none when absent or non-string. -/
def artField (pd : ParsedData) : Option String :=
  match pd.art with
  | some (JField.jstr s) => some s
  | _ => none

/-- Truthiness of parsedData.text at src line 323 (an absent field and an
empty string are falsy). -/
def textTruthy (pd : ParsedData) : Bool :=
  match pd.text with
  | some t => t != ""
  | none => false

/-- Result construction of src lines 319-325: always art, text only when the
feature flag is set and parsedData.text is truthy. -/
def buildResult (flag : Bool) (pd : ParsedData) (a : String) : AsciiArtData :=
  { art := a, text := if flag && textTruthy pd then pd.text else none }

/-- One iteration of the try block of src lines 287-327, parameterised by
the auxiliary-text feature flag: service call, trimming and fence stripping,
brace validation, JSON parsing, art validation, result construction.  The
error is the thrown value caught at src line 329. -/
def attemptOnceWith (flag : Bool) (env : GenEnv) (attempt : Nat) :
    Except Thrown AsciiArtData :=
  match env.call attempt with
  | .error t => .error t
  | .ok responseText =>
    if startsWithBrace (extractJsonStr responseText) &&
        endsWithBrace (extractJsonStr responseText) then
      match env.parse (extractJsonStr responseText) with
      | .error m => .error (Thrown.err m)
      | .ok parsedData =>
        match artField parsedData with
        | none => .error (Thrown.err "Invalid or empty ASCII art in response")
        | some a =>
          if jsTrim a = "" then
            .error (Thrown.err "Invalid or empty ASCII art in response")
          else .ok (buildResult flag parsedData a)
    else .error (Thrown.err "Response is not a valid JSON object")

/-- One attempt with the flag value fixed by the source. -/
def attemptOnce (env : GenEnv) (attempt : Nat) : Except Thrown AsciiArtData :=
  attemptOnceWith ENABLE_ASCII_TEXT_GENERATION env attempt

/-- Terminal error message of src line 335. -/
def exhaustedMsg (m : String) : String :=
  "Could not generate ASCII art after " ++ toString maxRetries ++ " attempts: " ++ m

/-- The retry loop of src lines 286-340, returning the outcome together with
the number of service calls performed.  The fuel argument only bounds the
recursion; with fuel at least maxRetries the loop semantics of the source is
reproduced exactly, including the dead fallthrough of src line 340. -/
def genLoopWith (flag : Bool) (env : GenEnv) :
    Nat → Nat → Option Thrown → (Except String AsciiArtData) × Nat
  | 0, _, lastError =>
    (.error (match lastError with
      | some t => lastErrorMessage t
      | none => "All retry attempts failed"), 0)
  | fuel + 1, attempt, lastError =>
    if attempt ≤ maxRetries then
      match attemptOnceWith flag env attempt with
      | .ok r => (.ok r, 1)
      | .error t =>
        if attempt = maxRetries then
          (.error (exhaustedMsg (lastErrorMessage t)), 1)
        else
          ((genLoopWith flag env fuel (attempt + 1) (some t)).1,
           (genLoopWith flag env fuel (attempt + 1) (some t)).2 + 1)
    else
      (.error (match lastError with
        | some t => lastErrorMessage t
        | none => "All retry attempts failed"), 0)

/-- generateAsciiArt of src lines 118-341, parameterised by the feature
flag: the getAi credential check of src lines 8-13 and 119, then the retry
loop.  The topic, language and style arguments only shape the prompt string
sent to the service and are absorbed into the environment.  The second
component is the number of outbound service calls. -/
def generateAsciiArtWith (flag : Bool) (env : GenEnv) (apiKey : String) :
    (Except String AsciiArtData) × Nat :=
  if apiKey = "" then (.error apiKeyMissingMsg, 0)
  else genLoopWith flag env (maxRetries + 1) 1 none

/-- generateAsciiArt with the flag value fixed by the source. -/
def generateAsciiArt (env : GenEnv) (apiKey : String) :
    (Except String AsciiArtData) × Nat :=
  generateAsciiArtWith ENABLE_ASCII_TEXT_GENERATION env apiKey

/-- getRandomWord of src lines 88-108: credential check via getAi, a single
service call (svc is its outcome), trimmed response on success, a wrapped
message on failure.  The second component is the number of service calls. -/
def getRandomWord (svc : Except Thrown String) (apiKey : String) :
    (Except String String) × Nat :=
  if apiKey = "" then (.error apiKeyMissingMsg, 0)
  else
    match svc with
    | .error t => (.error ("Could not get random word: " ++ errorMessageOf t), 1)
    | .ok s => (.ok (jsTrim s), 1)

/-- How the upstream stream of generateContentStream ends: normal
completion, or a thrown value after the listed chunks were delivered (a
failure of the initial await is the broken ending with no chunks). -/
inductive StreamEnding where
  | complete
  | broken (t : Thrown)
  deriving DecidableEq

/-- Upstream behaviour for one streamDefinition invocation: the chunk.text
values delivered in order (none models an absent text field), then how the
stream ends. -/
structure StreamEnv where
  chunks : List (Option String)
  ending : StreamEnding
  deriving DecidableEq

/-- Everything a consumer of the async generator observes: the yielded
fragments in order, the message of the thrown error if the generator throws
(none for a normal return), and the number of service calls made. -/
structure StreamOutcome where
  yields : List String
  thrown : Option String
  calls : Nat
  deriving DecidableEq

/-- The chunk filter of src lines 67-71: yield chunk.text only when it is
truthy (present and non-empty). -/
def chunkYield : Option String → Option String
  | some s => if s == "" then none else some s
  | none => none

/-- Fragment yielded at src line 50 when the key is missing. -/
def configErrorFragment : String :=
  "Error: API_KEY is not configured. Please set your API key to continue."

/-- Error fragment of src line 76. -/
def streamErrFragment (topic msg : String) : String :=
  "Error: Could not generate content for \"" ++ topic ++ "\". " ++ msg ++
    ". Please check if your API key is correct."

/-- streamDefinition of src lines 44-80: missing key yields the
configuration fragment and returns without any service call; otherwise one
streaming call is made, truthy chunk texts are yielded in order, and a
mid-stream failure appends one error fragment and re-throws the error
message.  The language argument only shapes the prompt and is absorbed into
the environment. -/
def streamDefinition (topic : String) (apiKey : String) (up : StreamEnv) :
    StreamOutcome :=
  if apiKey = "" then ⟨[configErrorFragment], none, 0⟩
  else
    match up.ending with
    | .complete => ⟨up.chunks.filterMap chunkYield, none, 1⟩
    | .broken t =>
      ⟨up.chunks.filterMap chunkYield ++ [streamErrFragment topic (errorMessageOf t)],
       some (errorMessageOf t), 1⟩

/-! Concrete sample environments, used to evaluate the verified statements
on explicit inputs. -/

/-- A well-formed raw service response (a JSON object). -/
def goodJson : String := "\x7b\"art\":\"ART\"\x7d"

/-- The object that parsing goodJson yields. -/
def goodParsed : ParsedData := ⟨some (JField.jstr "ART"), none⟩

/-- A raw response parsing to a whitespace-only art field. -/
def emptyArtJson : String := "\x7b\"art\":\"   \"\x7d"

/-- A raw response with braces that JSON.parse rejects. -/
def badJson : String := "\x7bbad\x7d"

/-- A deterministic model of JSON.parse for the sample responses. -/
def parseW : String → Except String ParsedData := fun s =>
  if s = goodJson then .ok goodParsed
  else if s = emptyArtJson then .ok ⟨some (JField.jstr "   "), none⟩
  else .error "Unexpected token"

/-- Service failing on attempts 1 and 2, succeeding on attempt 3. -/
def envThird : GenEnv :=
  ⟨fun n => if n = 3 then .ok goodJson else .error (Thrown.err ("net" ++ toString n)),
   parseW⟩

/-- Service failing on every attempt. -/
def envAllFail : GenEnv :=
  ⟨fun n => .error (Thrown.err ("net" ++ toString n)), parseW⟩

/-- Service returning a whitespace-only art field on attempt 1 and a valid
response afterwards. -/
def envEmptyArt : GenEnv :=
  ⟨fun n => if n = 1 then .ok emptyArtJson else .ok goodJson, parseW⟩

/-- Service returning a non-JSON text on attempt 1 and an unparsable object
on attempt 2. -/
def envMalformed : GenEnv :=
  ⟨fun n => if n = 1 then .ok "notjson" else .ok badJson, parseW⟩

/-- Service whose response parses to an object carrying a truthy text
field. -/
def envWithText : GenEnv :=
  ⟨fun _ => .ok goodJson,
   fun s => if s = goodJson then .ok ⟨some (JField.jstr "ART"), some "TXT"⟩
            else .error "Unexpected token"⟩

/-- Upstream stream delivering one fragment and then failing. -/
def upBroken : StreamEnv := ⟨[some "first"], .broken (Thrown.err "boom")⟩

/-- Upstream stream delivering a mix of truthy, empty and absent chunk
texts and completing normally. -/
def upMixed : StreamEnv := ⟨[some "a", some "", none, some "b"], .complete⟩
/-! Helper lemmas -/

lemma genLoop_succ (flag : Bool) (env : GenEnv) {fuel f : Nat} (hf : fuel = f + 1)
    (attempt : Nat) (le : Option Thrown) (h1 : attempt ≤ maxRetries) :
    genLoopWith flag env fuel attempt le =
      match attemptOnceWith flag env attempt with
      | .ok r => (.ok r, 1)
      | .error t =>
        if attempt = maxRetries then (.error (exhaustedMsg (lastErrorMessage t)), 1)
        else ((genLoopWith flag env f (attempt + 1) (some t)).1,
              (genLoopWith flag env f (attempt + 1) (some t)).2 + 1) := by
  subst hf
  simp only [genLoopWith, if_pos h1]

lemma generate_cases (flag : Bool) (env : GenEnv) (key : String) (hk : ¬ key = "") :
    (∀ r, attemptOnceWith flag env 1 = .ok r →
       generateAsciiArtWith flag env key = (.ok r, 1)) ∧
    (∀ t1 r, attemptOnceWith flag env 1 = .error t1 →
       attemptOnceWith flag env 2 = .ok r →
       generateAsciiArtWith flag env key = (.ok r, 2)) ∧
    (∀ t1 t2 r, attemptOnceWith flag env 1 = .error t1 →
       attemptOnceWith flag env 2 = .error t2 →
       attemptOnceWith flag env 3 = .ok r →
       generateAsciiArtWith flag env key = (.ok r, 3)) ∧
    (∀ t1 t2 t3, attemptOnceWith flag env 1 = .error t1 →
       attemptOnceWith flag env 2 = .error t2 →
       attemptOnceWith flag env 3 = .error t3 →
       generateAsciiArtWith flag env key =
         (.error (exhaustedMsg (lastErrorMessage t3)), 3)) := by
  have e1 : generateAsciiArtWith flag env key = genLoopWith flag env (maxRetries + 1) 1 none := by
    simp only [generateAsciiArtWith, if_neg hk]
  have n1 : ¬ (1 = maxRetries) := by decide
  have n2 : ¬ (2 = maxRetries) := by decide
  have y3 : (3 = maxRetries) := by decide
  refine ⟨?_, ?_, ?_, ?_⟩
  · intro r h
    rw [e1, genLoop_succ flag env rfl 1 none (by decide)]
    simp only [h]
  · intro t1 r h1 h2
    rw [e1, genLoop_succ flag env rfl 1 none (by decide)]
    simp only [h1, if_neg n1]
    rw [genLoop_succ flag env (show maxRetries = 2 + 1 by decide) 2 (some t1) (by decide)]
    simp only [h2]
  · intro t1 t2 r h1 h2 h3
    rw [e1, genLoop_succ flag env rfl 1 none (by decide)]
    simp only [h1, if_neg n1]
    rw [genLoop_succ flag env (show maxRetries = 2 + 1 by decide) 2 (some t1) (by decide)]
    simp only [h2, if_neg n2]
    rw [genLoop_succ flag env (show (2:Nat) = 1 + 1 by decide) 3 (some t2) (by decide)]
    simp only [h3]
  · intro t1 t2 t3 h1 h2 h3
    rw [e1, genLoop_succ flag env rfl 1 none (by decide)]
    simp only [h1, if_neg n1]
    rw [genLoop_succ flag env (show maxRetries = 2 + 1 by decide) 2 (some t1) (by decide)]
    simp only [h2, if_neg n2]
    rw [genLoop_succ flag env (show (2:Nat) = 1 + 1 by decide) 3 (some t2) (by decide)]
    simp only [h3, if_pos y3]

lemma exhaustedMsg_eq (m : String) :
    exhaustedMsg m = "Could not generate ASCII art after 3 attempts: " ++ m := by
  unfold exhaustedMsg maxRetries
  rw [show ("Could not generate ASCII art after " ++ toString (3:Nat) ++ " attempts: ")
      = "Could not generate ASCII art after 3 attempts: " by decide]

/-- C1: with the retry bound 3, failures on attempts 1 and 2 followed by a
validated attempt-3 response make generateAsciiArt return the attempt-3
result after exactly 3 service calls; a success on attempt 1 or 2 returns
immediately with exactly that many calls. -/
theorem generate_first_success (env : GenEnv) (key : String) (hk : key ≠ "") :
    (∀ r, attemptOnce env 1 = .ok r → generateAsciiArt env key = (.ok r, 1)) ∧
    (∀ t1 r, attemptOnce env 1 = .error t1 → attemptOnce env 2 = .ok r →
       generateAsciiArt env key = (.ok r, 2)) ∧
    (∀ t1 t2 r, attemptOnce env 1 = .error t1 → attemptOnce env 2 = .error t2 →
       attemptOnce env 3 = .ok r → generateAsciiArt env key = (.ok r, 3)) := by
  have h := generate_cases ENABLE_ASCII_TEXT_GENERATION env key hk
  exact ⟨h.1, h.2.1, h.2.2.1⟩

theorem generate_first_success_witness :
    generateAsciiArt envThird "key" = (.ok { art := "ART", text := none }, 3) :=
  (generate_first_success envThird "key" (by decide)).2.2
    (Thrown.err "net1") (Thrown.err "net2") { art := "ART", text := none }
    rfl rfl rfl

/-- C2: when all 3 permitted attempts fail, generateAsciiArt fails after
exactly 3 calls with a single terminal error whose message names the
attempt count 3 and embeds the message of the final failure only; the
earlier errors t1 and t2 do not occur in the result. -/
theorem generate_exhausted (env : GenEnv) (key : String) (t1 t2 t3 : Thrown)
    (hk : key ≠ "")
    (h1 : attemptOnce env 1 = .error t1)
    (h2 : attemptOnce env 2 = .error t2)
    (h3 : attemptOnce env 3 = .error t3) :
    generateAsciiArt env key =
      (.error ("Could not generate ASCII art after 3 attempts: " ++ lastErrorMessage t3), 3) := by
  have h := (generate_cases ENABLE_ASCII_TEXT_GENERATION env key hk).2.2.2 t1 t2 t3 h1 h2 h3
  rw [← exhaustedMsg_eq]
  exact h

theorem generate_exhausted_witness :
    generateAsciiArt envAllFail "key" =
      (.error ("Could not generate ASCII art after 3 attempts: " ++
        lastErrorMessage (Thrown.err "net3")), 3) :=
  generate_exhausted envAllFail "key" (Thrown.err "net1") (Thrown.err "net2")
    (Thrown.err "net3") (by decide) rfl rfl rfl

/-- C3: with an empty (missing) API key, generateAsciiArt and getRandomWord
fail at once with the configuration message of getAi, perform zero service
calls, and never enter the retry loop. -/
theorem missing_key_immediate (env : GenEnv) (svc : Except Thrown String) :
    generateAsciiArt env "" =
      (.error "API Key is missing. Please provide a valid API key.", 0) ∧
    getRandomWord svc "" =
      (.error "API Key is missing. Please provide a valid API key.", 0) :=
  ⟨rfl, rfl⟩

/-- C8: for all three public operations an empty API key is reported before
any service call is made (zero calls) and as the configuration message, not
as a network failure. -/
theorem config_error_before_network (env : GenEnv) (svc : Except Thrown String)
    (topic : String) (up : StreamEnv) :
    generateAsciiArt env "" = (.error apiKeyMissingMsg, 0) ∧
    getRandomWord svc "" = (.error apiKeyMissingMsg, 0) ∧
    streamDefinition topic "" up = ⟨[configErrorFragment], none, 0⟩ :=
  ⟨rfl, rfl, rfl⟩

/-- C7: when the upstream stream fails after delivering some fragments, the
consumer observes the delivered fragments, then exactly one error fragment,
and the generator then throws the error message; nothing follows the error
fragment. -/
theorem stream_failure_order (topic key : String) (up : StreamEnv) (t : Thrown)
    (hk : key ≠ "") (he : up.ending = .broken t) :
    streamDefinition topic key up =
      ⟨up.chunks.filterMap chunkYield ++ [streamErrFragment topic (errorMessageOf t)],
       some (errorMessageOf t), 1⟩ := by
  unfold streamDefinition
  rw [if_neg hk, he]

theorem stream_failure_order_witness :
    streamDefinition "cat" "key" upBroken =
      ⟨["first", streamErrFragment "cat" "boom"], some "boom", 1⟩ := by
  have h := stream_failure_order "cat" "key" upBroken (Thrown.err "boom")
    (by decide) rfl
  rw [h]
  rfl

/-- C10: in a normally completing stream, the yielded fragments are exactly
the truthy chunk texts in order (empty or absent chunk texts are silently
skipped), so every yielded fragment is a non-empty string. -/
theorem stream_fragments_nonempty (topic key : String) (up : StreamEnv)
    (hk : key ≠ "") (he : up.ending = .complete) :
    (streamDefinition topic key up).yields = up.chunks.filterMap chunkYield ∧
    ∀ s ∈ (streamDefinition topic key up).yields, s ≠ "" := by
  have hy : (streamDefinition topic key up).yields = up.chunks.filterMap chunkYield := by
    unfold streamDefinition
    rw [if_neg hk, he]
  refine ⟨hy, ?_⟩
  intro s hs
  rw [hy] at hs
  obtain ⟨c, _, hcy⟩ := List.mem_filterMap.mp hs
  cases c with
  | none => simp [chunkYield] at hcy
  | some u =>
    by_cases hu : u = ""
    · subst hu
      simp [chunkYield] at hcy
    · have hbe : (u == "") = false := by simpa using hu
      have : u = s := by
        simp [chunkYield, hbe] at hcy
        exact hcy
      exact this ▸ hu

theorem stream_fragments_nonempty_witness :
    (streamDefinition "t" "key" upMixed).yields = ["a", "b"] ∧
    ∀ s ∈ (streamDefinition "t" "key" upMixed).yields, s ≠ "" := by
  have h := stream_fragments_nonempty "t" "key" upMixed (by decide) rfl
  exact ⟨h.1.trans (by decide), h.2⟩

/-- C9 counterexample: getRandomWord does not return the raw response text:
for the successful response " word " it returns the trimmed string "word",
so the claim as stated fails at this input (one call is still made). -/
theorem random_word_returns_trimmed_cex :
    getRandomWord (Except.ok " word ") "key" = (.ok "word", 1) ∧
    ("word" : String) ≠ " word " := by
  constructor
  · decide
  · decide

/-- C9 (amended): getRandomWord makes exactly one service call with no
retry; on failure it fails at once with the single wrapped message; on
success it returns the whitespace-trimmed response text. -/
theorem random_word_single_call (svc : Except Thrown String) (key : String)
    (hk : key ≠ "") :
    (∀ t, svc = .error t → getRandomWord svc key =
       (.error ("Could not get random word: " ++ errorMessageOf t), 1)) ∧
    (∀ s, svc = .ok s → getRandomWord svc key = (.ok (jsTrim s), 1)) := by
  constructor
  · intro t ht
    subst ht
    unfold getRandomWord
    rw [if_neg hk]
  · intro s hs
    subst hs
    unfold getRandomWord
    rw [if_neg hk]

theorem random_word_single_call_witness :
    getRandomWord (Except.error (Thrown.err "down")) "key" =
      (.error ("Could not get random word: " ++ errorMessageOf (Thrown.err "down")), 1) :=
  (random_word_single_call (Except.error (Thrown.err "down")) "key" (by decide)).1
    (Thrown.err "down") rfl

lemma attempt_brace_reject {flag : Bool} {env : GenEnv} {n : Nat} {s : String}
    (hc : env.call n = .ok s)
    (hb : (startsWithBrace (extractJsonStr s) && endsWithBrace (extractJsonStr s)) = false) :
    attemptOnceWith flag env n = .error (Thrown.err "Response is not a valid JSON object") := by
  unfold attemptOnceWith
  rw [hc]
  simp [hb]

lemma attempt_parse_reject {flag : Bool} {env : GenEnv} {n : Nat} {s m : String}
    (hc : env.call n = .ok s)
    (hb : (startsWithBrace (extractJsonStr s) && endsWithBrace (extractJsonStr s)) = true)
    (hp : env.parse (extractJsonStr s) = .error m) :
    attemptOnceWith flag env n = .error (Thrown.err m) := by
  unfold attemptOnceWith
  rw [hc]
  simp [hb, hp]

lemma attempt_art_reject {flag : Bool} {env : GenEnv} {n : Nat} {s : String}
    {pd : ParsedData}
    (hc : env.call n = .ok s)
    (hb : (startsWithBrace (extractJsonStr s) && endsWithBrace (extractJsonStr s)) = true)
    (hp : env.parse (extractJsonStr s) = .ok pd)
    (ha : artField pd = none ∨ ∃ a, artField pd = some a ∧ jsTrim a = "") :
    attemptOnceWith flag env n = .error (Thrown.err "Invalid or empty ASCII art in response") := by
  unfold attemptOnceWith
  rw [hc]
  rcases ha with h | ⟨a, ha, hta⟩
  · simp [hb, hp, h]
  · simp [hb, hp, ha, hta]

lemma attempt_same_jsonStr {flag : Bool} {env : GenEnv} {n n' : Nat} {s s' : String}
    (hc : env.call n = .ok s) (hc' : env.call n' = .ok s')
    (he : extractJsonStr s = extractJsonStr s') :
    attemptOnceWith flag env n = attemptOnceWith flag env n' := by
  unfold attemptOnceWith
  rw [hc, hc']
  simp only [he]

lemma attempt_ok_inv {flag : Bool} {env : GenEnv} {k : Nat} {r : AsciiArtData}
    (h : attemptOnceWith flag env k = .ok r) :
    ∃ s pd a, env.call k = .ok s ∧ env.parse (extractJsonStr s) = .ok pd ∧
      artField pd = some a ∧ ¬ jsTrim a = "" ∧ r = buildResult flag pd a := by
  unfold attemptOnceWith at h
  split at h
  · exact absurd h (by simp)
  next s heq =>
    split at h
    · split at h
      · exact absurd h (by simp)
      next pd hp =>
        split at h
        · exact absurd h (by simp)
        next a ha =>
          split at h
          · exact absurd h (by simp)
          next hta =>
            exact ⟨s, pd, a, heq, hp, ha, hta, (Except.ok.inj h).symm⟩
    · exact absurd h (by simp)

lemma genLoop_fst_ok {flag : Bool} {env : GenEnv} :
    ∀ {fuel attempt : Nat} {le : Option Thrown} {r : AsciiArtData},
      (genLoopWith flag env fuel attempt le).1 = .ok r →
      ∃ k, attemptOnceWith flag env k = .ok r := by
  intro fuel
  induction fuel with
  | zero =>
    intro attempt le r h
    exact absurd h (by simp [genLoopWith])
  | succ f ih =>
    intro attempt le r h
    simp only [genLoopWith] at h
    split at h
    · split at h
      next rr hr =>
        exact ⟨attempt, hr.trans (congrArg Except.ok (Except.ok.inj h))⟩
      next t ht =>
        split at h
        · exact absurd h (by simp)
        · exact ih h
    · exact absurd h (by simp)

lemma genLoop_calls_pos (flag : Bool) (env : GenEnv) (f attempt : Nat)
    (le : Option Thrown) (h1 : attempt ≤ maxRetries) :
    1 ≤ (genLoopWith flag env (f + 1) attempt le).2 := by
  simp only [genLoopWith, if_pos h1]
  split
  · simp
  · split
    · simp
    · simp

/-- C4: every result generateAsciiArt returns has an art string that is
non-empty after trimming; a parsed response whose art field is absent, not
a string, or whitespace-only is rejected with the validation error, and
with attempts remaining the rejection leads to a further service call
(at least 2 calls in total). -/
theorem art_nonempty_invariant :
    (∀ (env : GenEnv) (key : String) (r : AsciiArtData) (n : Nat),
       generateAsciiArt env key = (.ok r, n) → ¬ jsTrim r.art = "") ∧
    (∀ (env : GenEnv) (key : String) (s : String) (pd : ParsedData),
       key ≠ "" → env.call 1 = .ok s →
       (startsWithBrace (extractJsonStr s) && endsWithBrace (extractJsonStr s)) = true →
       env.parse (extractJsonStr s) = .ok pd →
       (artField pd = none ∨ ∃ a, artField pd = some a ∧ jsTrim a = "") →
       attemptOnce env 1 = .error (Thrown.err "Invalid or empty ASCII art in response") ∧
         2 ≤ (generateAsciiArt env key).2) := by
  constructor
  · intro env key r n h
    have hfst : (generateAsciiArt env key).1 = .ok r := by rw [h]
    unfold generateAsciiArt generateAsciiArtWith at hfst
    split at hfst
    · exact absurd hfst (by simp)
    · obtain ⟨k, hk⟩ := genLoop_fst_ok hfst
      obtain ⟨s, pd, a, _, _, _, hta, hr⟩ := attempt_ok_inv hk
      rw [hr]
      exact hta
  · intro env key s pd hk hc hb hp ha
    have h1 : attemptOnce env 1 = .error (Thrown.err "Invalid or empty ASCII art in response") :=
      attempt_art_reject hc hb hp ha
    refine ⟨h1, ?_⟩
    have h1' : attemptOnceWith ENABLE_ASCII_TEXT_GENERATION env 1 =
        .error (Thrown.err "Invalid or empty ASCII art in response") := h1
    unfold generateAsciiArt generateAsciiArtWith
    rw [if_neg hk]
    rw [genLoop_succ ENABLE_ASCII_TEXT_GENERATION env rfl 1 none (by decide)]
    simp only [h1', if_neg (show ¬ (1 = maxRetries) by decide)]
    rw [show maxRetries = 2 + 1 from by decide]
    have := genLoop_calls_pos ENABLE_ASCII_TEXT_GENERATION env 2 (1 + 1)
      (some (Thrown.err "Invalid or empty ASCII art in response")) (by decide)
    omega

theorem art_nonempty_invariant_witness :
    (¬ jsTrim (AsciiArtData.mk "ART" none).art = "") ∧
    (attemptOnce envEmptyArt 1 = .error (Thrown.err "Invalid or empty ASCII art in response") ∧
     2 ≤ (generateAsciiArt envEmptyArt "key").2) :=
  ⟨art_nonempty_invariant.1 envThird "key" (AsciiArtData.mk "ART" none) 3 (by decide),
   art_nonempty_invariant.2 envEmptyArt "key" emptyArtJson
     ⟨some (JField.jstr "   "), none⟩ (by decide) rfl (by decide) (by decide)
     (Or.inr ⟨"   ", rfl, by decide⟩)⟩

/-- C6: a successful result carries the auxiliary text field exactly when
the auxiliary-text feature flag is set and the parsed response has a truthy
text field (in which case the text of the result is that field); with the
flag value false fixed by the source, every result of generateAsciiArt has
no text field. -/
theorem text_field_condition :
    (∀ (flag : Bool) (env : GenEnv) (n : Nat) (s : String) (pd : ParsedData)
       (r : AsciiArtData),
       env.call n = .ok s → env.parse (extractJsonStr s) = .ok pd →
       attemptOnceWith flag env n = .ok r →
       r.text = (if flag && textTruthy pd then pd.text else none) ∧
       (r.text ≠ none ↔ flag = true ∧ textTruthy pd = true)) ∧
    (∀ (env : GenEnv) (key : String) (r : AsciiArtData) (n : Nat),
       generateAsciiArt env key = (.ok r, n) → r.text = none) := by
  constructor
  · intro flag env n s pd r hc hp h
    obtain ⟨s', pd', a, hc', hp', ha, hta, hr⟩ := attempt_ok_inv h
    have hs : s = s' := Except.ok.inj (hc.symm.trans hc')
    subst hs
    have hpd : pd = pd' := Except.ok.inj (hp.symm.trans hp')
    subst hpd
    subst hr
    refine ⟨rfl, ?_, ?_⟩
    · intro hne
      by_contra hcon
      have hfalse : (flag && textTruthy pd) = false := by
        cases hf : flag <;> cases ht : textTruthy pd <;> simp_all
      apply hne
      show (buildResult flag pd a).text = none
      simp [buildResult, hfalse]
    · rintro ⟨hf, ht⟩
      have hcond : (flag && textTruthy pd) = true := by rw [hf, ht]; rfl
      show (buildResult flag pd a).text ≠ none
      simp only [buildResult, if_pos hcond]
      cases hpt : pd.text with
      | none =>
        rw [textTruthy, hpt] at ht
        exact absurd ht (by simp)
      | some t => simp
  · intro env key r n h
    have hfst : (generateAsciiArt env key).1 = .ok r := by rw [h]
    unfold generateAsciiArt generateAsciiArtWith at hfst
    split at hfst
    · exact absurd hfst (by simp)
    · obtain ⟨k, hk⟩ := genLoop_fst_ok hfst
      obtain ⟨s, pd, a, _, _, _, _, hr⟩ := attempt_ok_inv hk
      rw [hr]
      simp [buildResult, ENABLE_ASCII_TEXT_GENERATION]

theorem text_field_condition_witness :
    ((AsciiArtData.mk "ART" (some "TXT")).text =
       (if true && textTruthy (ParsedData.mk (some (JField.jstr "ART")) (some "TXT"))
        then (ParsedData.mk (some (JField.jstr "ART")) (some "TXT")).text else none) ∧
     ((AsciiArtData.mk "ART" (some "TXT")).text ≠ none ↔
        true = true ∧
        textTruthy (ParsedData.mk (some (JField.jstr "ART")) (some "TXT")) = true)) ∧
    (AsciiArtData.mk "ART" none).text = none :=
  ⟨text_field_condition.1 true envWithText 1 goodJson
     (ParsedData.mk (some (JField.jstr "ART")) (some "TXT"))
     (AsciiArtData.mk "ART" (some "TXT")) rfl rfl rfl,
   text_field_condition.2 envThird "key" (AsciiArtData.mk "ART" none) 3 (by decide)⟩

lemma jsTrim_eq_self {s : String}
    (h1 : List.dropWhile isJsWS s.data = s.data)
    (h2 : List.dropWhile isJsWS s.data.reverse = s.data.reverse) : jsTrim s = s := by
  apply String.ext
  show dropWSRight (dropWS s.data) = s.data
  unfold dropWS dropWSRight
  rw [h1, h2, List.reverse_reverse]

lemma jsTrim_fix {s : String} (h : jsTrim s = s) :
    List.dropWhile isJsWS s.data = s.data ∧
    List.dropWhile isJsWS s.data.reverse = s.data.reverse := by
  have hd : dropWSRight (dropWS s.data) = s.data := congrArg String.data h
  have hsub1 : (List.dropWhile isJsWS s.data).Sublist s.data := List.dropWhile_sublist _
  have hsub2 : (dropWSRight (dropWS s.data)).Sublist (dropWS s.data) := by
    unfold dropWSRight
    have h3 : ((dropWS s.data).reverse.dropWhile isJsWS).Sublist (dropWS s.data).reverse :=
      List.dropWhile_sublist _
    simpa using h3.reverse
  have hlen : (dropWS s.data).length = s.data.length := by
    have l1 : (dropWS s.data).length ≤ s.data.length := hsub1.length_le
    have l2 : s.data.length ≤ (dropWS s.data).length := by
      conv_lhs => rw [← hd]
      exact hsub2.length_le
    omega
  have h1 : List.dropWhile isJsWS s.data = s.data := hsub1.eq_of_length hlen
  refine ⟨h1, ?_⟩
  have hd2 : dropWSRight s.data = s.data := by
    unfold dropWS at hd
    rw [h1] at hd
    exact hd
  have := congrArg List.reverse hd2
  unfold dropWSRight at this
  rw [List.reverse_reverse] at this
  exact this

lemma dropWhile_fix_head {p : Char → Bool} {c : Char} {cs : List Char}
    (h : List.dropWhile p (c :: cs) = c :: cs) : p c = false := by
  by_contra hcc
  have hc' : p c = true := by simpa using hcc
  rw [List.dropWhile_cons_of_pos hc'] at h
  have hlen := congrArg List.length h
  have hle := (List.dropWhile_sublist (l := cs) p).length_le
  simp at hlen
  omega

lemma dropWhile_append_fix {p : Char → Bool} {d : List Char}
    (h : List.dropWhile p d = d) (hne : d ≠ []) (X : List Char) :
    List.dropWhile p (d ++ X) = d ++ X := by
  cases d with
  | nil => exact absurd rfl hne
  | cons c cs =>
    have hc : p c = false := dropWhile_fix_head h
    rw [List.cons_append, List.dropWhile_cons_of_neg (by simp [hc])]

lemma fenceSuffixBody_of (d : List Char)
    (hr : List.dropWhile isJsWS d.reverse = d.reverse) :
    fenceSuffixBody (d ++ ['\n', btick, btick, btick]) = some d := by
  unfold fenceSuffixBody
  rw [List.reverse_append]
  simp only [show (['\n', btick, btick, btick].reverse) = [btick, btick, btick, '\n'] from rfl,
    List.cons_append, List.nil_append]
  rw [if_pos (by exact ⟨trivial, trivial, trivial⟩)]
  rw [List.dropWhile_cons_of_pos (by decide), hr, List.reverse_reverse]

lemma fenceCapture_head (s : String) (rest : List Char)
    (hdata : s.data = btick :: btick :: btick :: rest) :
    fenceCapture s =
      match fenceSuffixBody ((stripLabel rest).dropWhile isJsWS) with
      | some body => some (String.mk body)
      | none => none := by
  unfold fenceCapture
  simp only [hdata]
  rw [if_pos (show True ∧ True ∧ True from ⟨trivial, trivial, trivial⟩)]

lemma fenceCapture_json_wrap (inner : String) (htrim : jsTrim inner = inner)
    (hne : inner ≠ "") :
    fenceCapture ("```json\n" ++ inner ++ "\n```") = some inner := by
  obtain ⟨hh, hr⟩ := jsTrim_fix htrim
  have hdne : inner.data ≠ [] := fun h0 => hne (String.ext h0)
  have hdata : ("```json\n" ++ inner ++ "\n```").data
      = btick :: btick :: btick ::
        ('j' :: 's' :: 'o' :: 'n' :: '\n' :: (inner.data ++ ['\n', btick, btick, btick])) := by
    rfl
  rw [fenceCapture_head _ _ hdata]
  rw [show stripLabel ('j' :: 's' :: 'o' :: 'n' :: '\n' :: (inner.data ++ ['\n', btick, btick, btick]))
      = '\n' :: (inner.data ++ ['\n', btick, btick, btick]) from rfl]
  rw [List.dropWhile_cons_of_pos (by decide : isJsWS '\n' = true)]
  rw [dropWhile_append_fix hh hdne]
  rw [fenceSuffixBody_of inner.data hr]

lemma fenceCapture_plain_wrap (inner : String) (htrim : jsTrim inner = inner)
    (hne : inner ≠ "") :
    fenceCapture ("```\n" ++ inner ++ "\n```") = some inner := by
  obtain ⟨hh, hr⟩ := jsTrim_fix htrim
  have hdne : inner.data ≠ [] := fun h0 => hne (String.ext h0)
  have hdata : ("```\n" ++ inner ++ "\n```").data
      = btick :: btick :: btick ::
        ('\n' :: (inner.data ++ ['\n', btick, btick, btick])) := by
    rfl
  rw [fenceCapture_head _ _ hdata]
  rw [show stripLabel ('\n' :: (inner.data ++ ['\n', btick, btick, btick]))
      = '\n' :: (inner.data ++ ['\n', btick, btick, btick]) from rfl]
  rw [List.dropWhile_cons_of_pos (by decide : isJsWS '\n' = true)]
  rw [dropWhile_append_fix hh hdne]
  rw [fenceSuffixBody_of inner.data hr]

lemma dropWhile_reverse_concat (X : List Char) (c : Char) (hc : isJsWS c = false) :
    List.dropWhile isJsWS (X ++ [c]).reverse = (X ++ [c]).reverse := by
  rw [List.reverse_append]
  simp only [List.reverse_cons, List.reverse_nil, List.nil_append, List.singleton_append]
  exact List.dropWhile_cons_of_neg (by simp [hc])

lemma jsTrim_fenced_json (inner : String) :
    jsTrim ("```json\n" ++ inner ++ "\n```") = "```json\n" ++ inner ++ "\n```" := by
  apply jsTrim_eq_self
  · rw [show ("```json\n" ++ inner ++ "\n```").data = btick :: btick :: btick ::
        ('j' :: 's' :: 'o' :: 'n' :: '\n' :: (inner.data ++ ['\n', btick, btick, btick]))
        from rfl]
    exact List.dropWhile_cons_of_neg (by decide)
  · have hX : ("```json\n" ++ inner ++ "\n```").data
        = (btick :: btick :: btick :: 'j' :: 's' :: 'o' :: 'n' :: '\n' ::
           (inner.data ++ ['\n', btick, btick])) ++ [btick] := by
      show btick :: btick :: btick ::
        ('j' :: 's' :: 'o' :: 'n' :: '\n' :: (inner.data ++ ['\n', btick, btick, btick])) = _
      simp
    rw [hX]
    exact dropWhile_reverse_concat _ _ (by decide)

lemma jsTrim_fenced_plain (inner : String) :
    jsTrim ("```\n" ++ inner ++ "\n```") = "```\n" ++ inner ++ "\n```" := by
  apply jsTrim_eq_self
  · rw [show ("```\n" ++ inner ++ "\n```").data = btick :: btick :: btick ::
        ('\n' :: (inner.data ++ ['\n', btick, btick, btick])) from rfl]
    exact List.dropWhile_cons_of_neg (by decide)
  · have hX : ("```\n" ++ inner ++ "\n```").data
        = (btick :: btick :: btick :: '\n' ::
           (inner.data ++ ['\n', btick, btick])) ++ [btick] := by
      show btick :: btick :: btick ::
        ('\n' :: (inner.data ++ ['\n', btick, btick, btick])) = _
      simp
    rw [hX]
    exact dropWhile_reverse_concat _ _ (by decide)

lemma fenceCapture_none {s : String} (h : beginsWithFence s = false) :
    fenceCapture s = none := by
  rcases hd : s.data with _ | ⟨c1, _ | ⟨c2, _ | ⟨c3, rest⟩⟩⟩
  · simp [fenceCapture, hd]
  · simp [fenceCapture, hd]
  · simp [fenceCapture, hd]
  · simp only [beginsWithFence, hd] at h
    simp only [fenceCapture, hd]
    rw [if_neg]
    rintro ⟨e1, e2, e3⟩
    subst e1; subst e2; subst e3
    simp at h

lemma extractJsonStr_unfenced {s : String} (htrim : jsTrim s = s)
    (hfence : beginsWithFence s = false) : extractJsonStr s = s := by
  unfold extractJsonStr
  rw [htrim]
  show (match fenceCapture s with
    | some body => if body = "" then s else jsTrim body
    | none => s) = s
  rw [fenceCapture_none hfence]

lemma extractJsonStr_fenced_json (inner : String) (htrim : jsTrim inner = inner)
    (hne : inner ≠ "") :
    extractJsonStr ("```json\n" ++ inner ++ "\n```") = inner := by
  unfold extractJsonStr
  rw [jsTrim_fenced_json inner]
  show (match fenceCapture ("```json\n" ++ inner ++ "\n```") with
    | some body => if body = "" then "```json\n" ++ inner ++ "\n```" else jsTrim body
    | none => "```json\n" ++ inner ++ "\n```") = inner
  rw [fenceCapture_json_wrap inner htrim hne]
  simp [hne, htrim]

lemma extractJsonStr_fenced_plain (inner : String) (htrim : jsTrim inner = inner)
    (hne : inner ≠ "") :
    extractJsonStr ("```\n" ++ inner ++ "\n```") = inner := by
  unfold extractJsonStr
  rw [jsTrim_fenced_plain inner]
  show (match fenceCapture ("```\n" ++ inner ++ "\n```") with
    | some body => if body = "" then "```\n" ++ inner ++ "\n```" else jsTrim body
    | none => "```\n" ++ inner ++ "\n```") = inner
  rw [fenceCapture_plain_wrap inner htrim hne]
  simp [hne, htrim]

/-- C5: each attempt processes the raw response by trimming, stripping an
optional json-labelled code fence (so that a fenced response yields the
same jsonStr as the unfenced response, and equal jsonStr means identical
attempt outcomes), rejecting unless the remaining text starts with an
opening and ends with a closing brace, and rejecting when JSON parsing
fails. -/
theorem response_processing_pipeline :
    (∀ inner : String, jsTrim inner = inner → inner ≠ "" →
       beginsWithFence inner = false →
       extractJsonStr ("```json\n" ++ inner ++ "\n```") = extractJsonStr inner ∧
       extractJsonStr ("```\n" ++ inner ++ "\n```") = extractJsonStr inner) ∧
    (∀ (flag : Bool) (env : GenEnv) (n : Nat) (s : String),
       env.call n = .ok s →
       (startsWithBrace (extractJsonStr s) && endsWithBrace (extractJsonStr s)) = false →
       attemptOnceWith flag env n =
         .error (Thrown.err "Response is not a valid JSON object")) ∧
    (∀ (flag : Bool) (env : GenEnv) (n : Nat) (s m : String),
       env.call n = .ok s →
       (startsWithBrace (extractJsonStr s) && endsWithBrace (extractJsonStr s)) = true →
       env.parse (extractJsonStr s) = .error m →
       attemptOnceWith flag env n = .error (Thrown.err m)) ∧
    (∀ (flag : Bool) (env : GenEnv) (n n' : Nat) (s s' : String),
       env.call n = .ok s → env.call n' = .ok s' →
       extractJsonStr s = extractJsonStr s' →
       attemptOnceWith flag env n = attemptOnceWith flag env n') := by
  refine ⟨?_, ?_, ?_, ?_⟩
  · intro inner htrim hne hfence
    have hu : extractJsonStr inner = inner := extractJsonStr_unfenced htrim hfence
    exact ⟨(extractJsonStr_fenced_json inner htrim hne).trans hu.symm,
           (extractJsonStr_fenced_plain inner htrim hne).trans hu.symm⟩
  · intro flag env n s hc hb
    exact attempt_brace_reject hc hb
  · intro flag env n s m hc hb hp
    exact attempt_parse_reject hc hb hp
  · intro flag env n n' s s' hc hc' he
    exact attempt_same_jsonStr hc hc' he

theorem response_processing_pipeline_witness :
    (extractJsonStr ("```json\n" ++ goodJson ++ "\n```") = extractJsonStr goodJson ∧
     extractJsonStr ("```\n" ++ goodJson ++ "\n```") = extractJsonStr goodJson) ∧
    attemptOnceWith false envMalformed 1 =
      .error (Thrown.err "Response is not a valid JSON object") ∧
    attemptOnceWith false envMalformed 2 = .error (Thrown.err "Unexpected token") :=
  ⟨response_processing_pipeline.1 goodJson (by decide) (by decide) (by decide),
   response_processing_pipeline.2.1 false envMalformed 1 "notjson" rfl (by decide),
   response_processing_pipeline.2.2.1 false envMalformed 2 badJson "Unexpected token"
     rfl (by decide) (by decide)⟩
